import Mathlib

/-!
Shallow embedding of the cart / catalog MCP server (src/src/index.ts and
its schemas and entities).  The store is the two-table relational state:
`items` (id primary key, name, price) and `carts` (userId, itemId,
quantity, no primary-key constraint in the schema).  Each tool handler is
translated into a pure function from `Store` to result × `Store`; a SQL
statement touching several rows is a `List.map` / `List.filter` over the
table, `.get()` (first row) is `List.find?`, and the D1 `run()` result is
modelled with its documented semantics (see `D1RunResult`).
-/

/-- A row of the `items` table (entities/items: id primary key, name, price). -/
structure Item where
  id : String
  name : String
  price : Int
deriving Repr, DecidableEq

/-- A row of the `carts` table (entities/carts: user_id, item_id, quantity;
no primary-key or foreign-key constraint is declared). -/
structure CartLine where
  userId : String
  itemId : String
  quantity : Int
deriving Repr, DecidableEq

/-- The persisted state: the two tables, rows in insertion order. -/
structure Store where
  items : List Item
  carts : List CartLine
deriving Repr, DecidableEq

/-- The JSON result shape `{success, message?}` returned by the cart tools. -/
structure CartResult where
  success : Bool
  message : Option String
deriving Repr, DecidableEq

/-- Result of a D1 `.run()` statement as drizzle-orm/d1 returns it.
Cloudflare D1 documents `success` as "whether the query executed
successfully"; a failing statement raises an exception instead of
returning `success = false`, so a statement that executes — even one
affecting zero rows — reports `success = true`.  `changes` is the
affected-row count (`meta.changes`), which the source never reads. -/
structure D1RunResult where
  success : Bool
  changes : Nat
deriving Repr, DecidableEq

/-- The WHERE clause `and(eq(carts.userId, userId), eq(carts.itemId, itemId))`. -/
def lineMatch (userId itemId : String) (l : CartLine) : Bool :=
  l.userId == userId && l.itemId == itemId

/-- `addToCart` (index.ts:38-67): select the existing line for the pair
(`.get()` = first matching row); if present, UPDATE every row of the pair
to `existing.quantity + quantity`; else INSERT the new line.  Always
returns `{success: true}`. -/
def addToCart (s : Store) (userId itemId : String) (quantity : Int) :
    CartResult × Store :=
  match s.carts.find? (lineMatch userId itemId) with
  | some existing =>
      (⟨true, none⟩,
       ⟨s.items,
        s.carts.map fun l =>
          if lineMatch userId itemId l then
            ⟨l.userId, l.itemId, existing.quantity + quantity⟩
          else l⟩)
  | none =>
      (⟨true, none⟩, ⟨s.items, s.carts ++ [⟨userId, itemId, quantity⟩]⟩)

/-- `removeFromCart` (index.ts:69-109): select the existing line; if absent
return `{success: false, message: "Item not in cart"}`; else compute
`newQty = existing.quantity - quantity`; if `newQty > 0` UPDATE the pair's
rows to `newQty`, else DELETE the pair's rows; return `{success: true}`. -/
def removeFromCart (s : Store) (userId itemId : String) (quantity : Int) :
    CartResult × Store :=
  match s.carts.find? (lineMatch userId itemId) with
  | none => (⟨false, some "Item not in cart"⟩, s)
  | some existing =>
      let newQty := existing.quantity - quantity
      if newQty > 0 then
        (⟨true, none⟩,
         ⟨s.items,
          s.carts.map fun l =>
            if lineMatch userId itemId l then ⟨l.userId, l.itemId, newQty⟩
            else l⟩)
      else
        (⟨true, none⟩,
         ⟨s.items, s.carts.filter fun l => !lineMatch userId itemId l⟩)

/-- A row of the `viewCart` join result `{id, name, price, quantity}`. -/
structure CartViewRow where
  id : String
  name : String
  price : Int
  quantity : Int
deriving Repr, DecidableEq

/-- `viewCart` (index.ts:111-124): SELECT id, name, price, quantity FROM
carts INNER JOIN items ON carts.itemId = items.id WHERE carts.userId = ?.
Relational semantics: every (cart row, item row) pair with matching ids. -/
def viewCart (s : Store) (userId : String) : List CartViewRow :=
  (s.carts.filter fun l => l.userId == userId).flatMap fun l =>
    (s.items.filter fun it => it.id == l.itemId).map fun it =>
      ⟨it.id, it.name, it.price, l.quantity⟩

/-- `checkout` (index.ts:126-135): read `viewCart`, reduce
`sum + price * quantity` from 0, DELETE all of the user's cart rows,
return `{total, message: "Checkout complete!"}`. -/
def checkout (s : Store) (userId : String) : (Int × String) × Store :=
  let cart := viewCart s userId
  let total := cart.foldl (fun sum item => sum + item.price * item.quantity) 0
  ((total, "Checkout complete!"),
   ⟨s.items, s.carts.filter fun l => !(l.userId == userId)⟩)

/-- One `{itemId, quantity}` entry of the BulkCartSchema `items` array. -/
structure BulkEntry where
  itemId : String
  quantity : Int
deriving Repr, DecidableEq

/-- The for-loop body of the `addMultipleToCart` tool (index.ts:166-184):
`for (const {itemId, quantity} of items) await addToCart(...)`. -/
def addMultipleLoop (s : Store) (userId : String) : List BulkEntry → Store
  | [] => s
  | e :: rest =>
      addMultipleLoop (addToCart s userId e.itemId e.quantity).2 userId rest

/-- `addMultipleToCart` tool handler: run the loop, then return
`{success: true}` unconditionally. -/
def addMultipleToCart (s : Store) (userId : String) (entries : List BulkEntry) :
    CartResult × Store :=
  (⟨true, none⟩, addMultipleLoop s userId entries)

/-- The for-loop body of the `removeMultipleFromCart` tool
(index.ts:329-347); each entry's `removeFromCart` result is discarded. -/
def removeMultipleLoop (s : Store) (userId : String) : List BulkEntry → Store
  | [] => s
  | e :: rest =>
      removeMultipleLoop (removeFromCart s userId e.itemId e.quantity).2 userId
        rest

/-- `removeMultipleFromCart` tool handler: run the loop, then return
`{success: true}` unconditionally. -/
def removeMultipleFromCart (s : Store) (userId : String)
    (entries : List BulkEntry) : CartResult × Store :=
  (⟨true, none⟩, removeMultipleLoop s userId entries)

/-- The DELETE statement of the `removeItem` tool: remove every item row
with the given id and report the D1 run result (statement executed, so
`success = true`; `changes` counts deleted rows). -/
def deleteItemRun (s : Store) (id : String) : D1RunResult × Store :=
  let remaining := s.items.filter fun it => !(it.id == id)
  (⟨true, s.items.length - remaining.length⟩, ⟨remaining, s.carts⟩)

/-- `removeItem` tool (index.ts:301-326): DELETE by id, then report
`result.success ? "Item removed!" : "Item not found."`. -/
def removeItem (s : Store) (id : String) : String × Store :=
  let r := deleteItemRun s id
  ((if r.1.success then "Item removed!" else "Item not found."), r.2)

/-- The sparse patch `{name?, price?}` the `updateItem` tool builds from
its optional arguments. -/
def applyPatch (name : Option String) (price : Option Int) (it : Item) :
    Item :=
  ⟨it.id, name.getD it.name, price.getD it.price⟩

/-- The UPDATE statement of the `updateItem` tool: patch every item row
with the given id; the D1 run result has `success = true` (statement
executed) and `changes` counting matched rows. -/
def updateItemRun (s : Store) (id : String) (name : Option String)
    (price : Option Int) : D1RunResult × Store :=
  (⟨true, (s.items.filter fun it => it.id == id).length⟩,
   ⟨s.items.map fun it => if it.id == id then applyPatch name price it else it,
    s.carts⟩)

/-- `updateItem` tool (index.ts:259-298): build the patch from the provided
fields; if empty, return "No fields to update." without touching storage;
else run the UPDATE and report
`result.success ? "Item updated!" : "Item not found."`. -/
def updateItem (s : Store) (id : String) (name : Option String)
    (price : Option Int) : String × Store :=
  if name.isNone && price.isNone then ("No fields to update.", s)
  else
    let r := updateItemRun s id name price
    ((if r.1.success then "Item updated!" else "Item not found."), r.2)

/-- The §3 persistence invariant: every persisted cart line has strictly
positive quantity. -/
def cartInv (s : Store) : Prop :=
  ∀ l ∈ s.carts, 0 < l.quantity

instance (s : Store) : Decidable (cartInv s) :=
  inferInstanceAs (Decidable (∀ l ∈ s.carts, 0 < l.quantity))

/-- The store with both tables empty. -/
def emptyStore : Store := ⟨[], []⟩

/-! ### Helper lemmas -/

/-- `.get()` returns the head of the rows the WHERE clause selects. -/
theorem find?_eq_head?_filter {α : Type} (p : α → Bool) (l : List α) :
    l.find? p = (l.filter p).head? := by
  induction l with
  | nil => rfl
  | cons hd tl ih =>
      by_cases h : p hd
      · rw [List.find?_cons_of_pos _ h, List.filter_cons_of_pos h]
        rfl
      · rw [List.find?_cons_of_neg _ h, List.filter_cons_of_neg h, ih]

theorem addMultipleLoop_eq_foldl (u : String) (es : List BulkEntry) :
    ∀ s : Store,
      addMultipleLoop s u es =
        es.foldl (fun st e => (addToCart st u e.itemId e.quantity).2) s := by
  induction es with
  | nil => intro s; rfl
  | cons e rest ih => intro s; simp [addMultipleLoop, List.foldl, ih]

theorem removeMultipleLoop_eq_foldl (u : String) (es : List BulkEntry) :
    ∀ s : Store,
      removeMultipleLoop s u es =
        es.foldl (fun st e => (removeFromCart st u e.itemId e.quantity).2) s := by
  induction es with
  | nil => intro s; rfl
  | cons e rest ih => intro s; simp [removeMultipleLoop, List.foldl, ih]

/-! ### Claims -/

/-- C8: for every schema-valid input (the CartItemSchema only constrains
the fields' types, so every typed input is schema-valid), `addToCart`
returns `{success: true}` — also when `itemId` matches no item row; it
never returns a failure shape. -/
theorem C8_addToCart_always_success (s : Store) (u i : String) (q : Int) :
    (addToCart s u i q).1 = ⟨true, none⟩ := by
  cases h : s.carts.find? (lineMatch u i) <;> simp [addToCart, h]

/-- C9: `updateItem` with neither name nor price provided returns
"No fields to update." and returns the whole store unchanged: no write
happens to any table. -/
theorem C9_updateItem_no_fields (s : Store) (id : String) :
    updateItem s id none none = ("No fields to update.", s) := rfl

/-- C2 (refuted): the claim says a nonexistent id yields "Item not found.",
the report being driven by the affected-row count.  The code branches on
the D1 run result's `success` field, which reports statement execution
(errors are thrown, never returned), so a DELETE/UPDATE matching zero rows
still reports success: on an empty items table, `removeItem "ghost"`
answers "Item removed!" and `updateItem "ghost" (name := "x")` answers
"Item updated!", even though zero rows were affected; the table itself is
indeed left unchanged. -/
theorem C2_success_flag_bug :
    (removeItem emptyStore "ghost").1 = "Item removed!" ∧
    (removeItem emptyStore "ghost").2 = emptyStore ∧
    (deleteItemRun emptyStore "ghost").1.changes = 0 ∧
    (updateItem emptyStore "ghost" (some "x") none).1 = "Item updated!" ∧
    (updateItem emptyStore "ghost" (some "x") none).2 = emptyStore ∧
    (updateItemRun emptyStore "ghost" (some "x") none).1.changes = 0 := by
  decide

/-- C7: the bulk tools fold the single-line operations over their entries
in input order — `addMultipleToCart` is `addToCart` once per entry, and
`removeMultipleFromCart` is `removeFromCart` once per entry — and both
report `{success: true}` with no per-entry outcome. -/
theorem C7_bulk_folds_single (s : Store) (u : String) (es : List BulkEntry) :
    addMultipleToCart s u es =
      (⟨true, none⟩,
       es.foldl (fun st e => (addToCart st u e.itemId e.quantity).2) s) ∧
    removeMultipleFromCart s u es =
      (⟨true, none⟩,
       es.foldl (fun st e => (removeFromCart st u e.itemId e.quantity).2) s) := by
  refine ⟨?_, ?_⟩
  · simp [addMultipleToCart, addMultipleLoop_eq_foldl]
  · simp [removeMultipleFromCart, removeMultipleLoop_eq_foldl]

/-! ### Branch equations for the cart mutations -/

theorem addToCart_carts_of_absent (s : Store) (u i : String) (q : Int)
    (hf : s.carts.find? (lineMatch u i) = none) :
    (addToCart s u i q).2.carts = s.carts ++ [⟨u, i, q⟩] := by
  unfold addToCart
  rw [hf]

theorem addToCart_carts_of_found (s : Store) (u i : String) (q : Int)
    (ex : CartLine) (hf : s.carts.find? (lineMatch u i) = some ex) :
    (addToCart s u i q).2.carts =
      s.carts.map fun l =>
        if lineMatch u i l then ⟨l.userId, l.itemId, ex.quantity + q⟩
        else l := by
  unfold addToCart
  rw [hf]

theorem removeFromCart_of_absent (s : Store) (u i : String) (q : Int)
    (hf : s.carts.find? (lineMatch u i) = none) :
    removeFromCart s u i q = (⟨false, some "Item not in cart"⟩, s) := by
  unfold removeFromCart
  rw [hf]

theorem removeFromCart_of_found_pos (s : Store) (u i : String) (q : Int)
    (ex : CartLine) (hf : s.carts.find? (lineMatch u i) = some ex)
    (hq : ex.quantity - q > 0) :
    removeFromCart s u i q =
      (⟨true, none⟩,
       ⟨s.items,
        s.carts.map fun l =>
          if lineMatch u i l then ⟨l.userId, l.itemId, ex.quantity - q⟩
          else l⟩) := by
  unfold removeFromCart
  rw [hf]
  simp [hq]

theorem removeFromCart_of_found_nonpos (s : Store) (u i : String) (q : Int)
    (ex : CartLine) (hf : s.carts.find? (lineMatch u i) = some ex)
    (hq : ¬ ex.quantity - q > 0) :
    removeFromCart s u i q =
      (⟨true, none⟩,
       ⟨s.items, s.carts.filter fun l => !lineMatch u i l⟩) := by
  unfold removeFromCart
  rw [hf]
  simp [hq]

/-! ### Invariant preservation lemmas -/

theorem cartInv_addToCart (s : Store) (h : cartInv s) (u i : String)
    (q : Int) (hq : 0 < q) : cartInv (addToCart s u i q).2 := by
  intro l hl
  cases hf : s.carts.find? (lineMatch u i) with
  | none =>
      rw [addToCart_carts_of_absent s u i q hf, List.mem_append,
        List.mem_singleton] at hl
      rcases hl with hl | hl
      · exact h l hl
      · subst hl
        exact hq
  | some ex =>
      have hex : 0 < ex.quantity := h ex (List.mem_of_find?_eq_some hf)
      rw [addToCart_carts_of_found s u i q ex hf, List.mem_map] at hl
      obtain ⟨l0, hl0, rfl⟩ := hl
      by_cases hm : lineMatch u i l0
      · rw [if_pos hm]
        exact add_pos hex hq
      · rw [if_neg hm]
        exact h l0 hl0

theorem cartInv_removeFromCart (s : Store) (h : cartInv s) (u i : String)
    (q : Int) : cartInv (removeFromCart s u i q).2 := by
  cases hf : s.carts.find? (lineMatch u i) with
  | none =>
      rw [removeFromCart_of_absent s u i q hf]
      exact h
  | some ex =>
      by_cases hq : ex.quantity - q > 0
      · rw [removeFromCart_of_found_pos s u i q ex hf hq]
        intro l hl
        rw [List.mem_map] at hl
        obtain ⟨l0, hl0, rfl⟩ := hl
        by_cases hm : lineMatch u i l0
        · rw [if_pos hm]
          exact hq
        · rw [if_neg hm]
          exact h l0 hl0
      · rw [removeFromCart_of_found_nonpos s u i q ex hf hq]
        intro l hl
        exact h l (List.mem_of_mem_filter hl)

theorem cartInv_addMultipleLoop (u : String) (es : List BulkEntry) :
    ∀ s : Store, cartInv s → (∀ e ∈ es, 0 < e.quantity) →
      cartInv (addMultipleLoop s u es) := by
  induction es with
  | nil =>
      intro s h _
      exact h
  | cons e rest ih =>
      intro s h hq
      exact ih (addToCart s u e.itemId e.quantity).2
        (cartInv_addToCart s h u e.itemId e.quantity
          (hq e (List.mem_cons_self e rest)))
        fun e2 he2 => hq e2 (List.mem_cons_of_mem e he2)

theorem cartInv_removeMultipleLoop (u : String) (es : List BulkEntry) :
    ∀ s : Store, cartInv s → cartInv (removeMultipleLoop s u es) := by
  induction es with
  | nil =>
      intro s h
      exact h
  | cons e rest ih =>
      intro s h
      exact ih (removeFromCart s u e.itemId e.quantity).2
        (cartInv_removeFromCart s h u e.itemId e.quantity)

theorem cartInv_checkout (s : Store) (h : cartInv s) (u : String) :
    cartInv (checkout s u).2 := by
  intro l hl
  exact h l (List.mem_of_mem_filter hl)

/-- C1 is false as stated: quantity 0 is schema-valid (CartItemSchema only
requires `quantity` to be a number), the empty store satisfies the
invariant, yet `addToCart` with quantity 0 persists a cart line whose
quantity is 0. -/
theorem C1_zero_quantity_persists :
    cartInv emptyStore ∧
      ¬ cartInv (addToCart emptyStore "u1" "apple" 0).2 := by
  decide

/-- C1 (amended): starting from a state in which every persisted cart line
has strictly positive quantity, `removeFromCart`, `removeMultipleFromCart`
and `checkout` preserve the invariant for every input, while `addToCart`
and `addMultipleToCart` preserve it when every supplied quantity is
strictly positive (a zero or negative quantity argument can persist a
non-positive line, see the counterexample). -/
theorem C1_inv_preserved (s : Store) (h : cartInv s) :
    (∀ u i q, 0 < q → cartInv (addToCart s u i q).2) ∧
    (∀ u i q, cartInv (removeFromCart s u i q).2) ∧
    (∀ u es, (∀ e ∈ es, 0 < e.quantity) →
      cartInv (addMultipleToCart s u es).2) ∧
    (∀ u es, cartInv (removeMultipleFromCart s u es).2) ∧
    (∀ u, cartInv (checkout s u).2) :=
  ⟨fun u i q hq => cartInv_addToCart s h u i q hq,
   fun u i q => cartInv_removeFromCart s h u i q,
   fun u es hq => cartInv_addMultipleLoop u es s h hq,
   fun u es => cartInv_removeMultipleLoop u es s h,
   fun u => cartInv_checkout s h u⟩

/-- Witness for C1: the invariant holds after a concrete positive add to a
concrete invariant-satisfying store. -/
theorem C1_inv_preserved_witness :
    cartInv (addToCart ⟨[], [⟨"u1", "apple", 1⟩]⟩ "u1" "apple" 2).2 :=
  (C1_inv_preserved ⟨[], [⟨"u1", "apple", 1⟩]⟩ (by decide)).1 "u1" "apple" 2
    (by decide)

/-! ### Checkout lemmas -/

theorem checkout_total_eq (s : Store) (u : String) :
    (checkout s u).1.1 =
      (viewCart s u).foldl (fun sum item => sum + item.price * item.quantity)
        0 := rfl

theorem checkout_carts_eq (s : Store) (u : String) :
    (checkout s u).2.carts = s.carts.filter fun l => !(l.userId == u) := rfl

theorem foldl_total_eq_sum (l : List CartViewRow) :
    ∀ a : Int,
      l.foldl (fun sum item => sum + item.price * item.quantity) a =
        a + (l.map fun r => r.price * r.quantity).sum := by
  induction l with
  | nil =>
      intro a
      simp
  | cons hd tl ih =>
      intro a
      rw [List.foldl_cons, ih, List.map_cons, List.sum_cons, add_assoc]

/-- After checkout no row of the user survives in the carts table. -/
theorem checkout_carts_user_empty (s : Store) (u : String) :
    ((checkout s u).2.carts.filter fun l => l.userId == u) = [] := by
  rw [checkout_carts_eq, List.filter_filter]
  exact List.filter_eq_nil_iff.mpr fun a _ => by simp

/-- C3: the checkout total is the sum of price*quantity over the join view
at call time; checkout then deletes exactly the user's cart rows; an
immediate second checkout returns total 0; and for a user with no cart
rows the total is 0 and the store is unchanged. -/
theorem C3_checkout_correct (s : Store) (u : String) :
    (checkout s u).1.1 =
      ((viewCart s u).map fun r => r.price * r.quantity).sum ∧
    (checkout s u).2.carts = (s.carts.filter fun l => !(l.userId == u)) ∧
    (checkout (checkout s u).2 u).1.1 = 0 ∧
    ((s.carts.filter fun l => l.userId == u) = [] →
      (checkout s u).1.1 = 0 ∧ (checkout s u).2 = s) := by
  refine ⟨?_, rfl, ?_, ?_⟩
  · rw [checkout_total_eq, foldl_total_eq_sum]
    simp
  · rw [checkout_total_eq]
    have hview : viewCart (checkout s u).2 u = [] := by
      unfold viewCart
      rw [checkout_carts_user_empty]
      rfl
    rw [hview]
    rfl
  · intro hempty
    have hview : viewCart s u = [] := by
      unfold viewCart
      rw [hempty]
      rfl
    constructor
    · rw [checkout_total_eq, hview]
      rfl
    · have hkeep : (s.carts.filter fun l => !(l.userId == u)) = s.carts :=
        List.filter_eq_self.mpr fun a ha => by
          have := List.filter_eq_nil_iff.mp hempty a ha
          simpa using this
      show (⟨s.items, s.carts.filter fun l => !(l.userId == u)⟩ : Store) = s
      rw [hkeep]

/-- Witness for C3: a user with no cart rows gets total 0 and an unchanged
store. -/
theorem C3_checkout_correct_witness :
    (checkout ⟨[⟨"apple", "Apple", 1⟩], []⟩ "u1").1.1 = 0 ∧
    (checkout ⟨[⟨"apple", "Apple", 1⟩], []⟩ "u1").2 =
      ⟨[⟨"apple", "Apple", 1⟩], []⟩ :=
  (C3_checkout_correct ⟨[⟨"apple", "Apple", 1⟩], []⟩ "u1").2.2.2 (by decide)

/-- C10: checkout deletes the user's orphaned cart rows along with the
visible ones — afterwards the user has zero rows in the carts table — and
an orphaned row (no item with its itemId) contributes no row to the join
view, hence nothing to the total. -/
theorem C10_checkout_deletes_orphans (s : Store) (u : String) :
    ((checkout s u).2.carts.filter fun l => l.userId == u) = [] ∧
    ∀ l ∈ s.carts, l.userId = u → (∀ it ∈ s.items, ¬ it.id = l.itemId) →
      l ∉ (checkout s u).2.carts ∧ ∀ r ∈ viewCart s u, ¬ r.id = l.itemId := by
  refine ⟨checkout_carts_user_empty s u, ?_⟩
  intro l hl hlu hno
  constructor
  · intro hmem
    rw [checkout_carts_eq] at hmem
    have hkept := (List.mem_filter.mp hmem).2
    rw [hlu] at hkept
    simp at hkept
  · intro r hr
    unfold viewCart at hr
    rw [List.mem_flatMap] at hr
    obtain ⟨l0, hl0, hr⟩ := hr
    rw [List.mem_map] at hr
    obtain ⟨it, hit, rfl⟩ := hr
    intro hid
    exact hno it (List.mem_of_mem_filter hit) hid

/-- Witness for C10: a concrete orphaned row (its item does not exist) is
gone from the carts table after checkout. -/
theorem C10_checkout_deletes_orphans_witness :
    (⟨"u1", "ghost", 2⟩ : CartLine) ∉
      (checkout ⟨[], [⟨"u1", "ghost", 2⟩]⟩ "u1").2.carts :=
  ((C10_checkout_deletes_orphans ⟨[], [⟨"u1", "ghost", 2⟩]⟩ "u1").2
    ⟨"u1", "ghost", 2⟩ (by decide) rfl (by decide)).1

/-! ### Merge law -/

/-- A freshly built line for the pair satisfies the pair's WHERE clause. -/
theorem lineMatch_mk (u i : String) (q : Int) :
    lineMatch u i ⟨u, i, q⟩ = true := by
  simp [lineMatch]

/-- A conditional row update leaves a table with no matching row intact. -/
theorem map_update_no_match {p : CartLine → Bool} (g : CartLine → CartLine)
    (xs : List CartLine) (h : ∀ l ∈ xs, ¬ p l) :
    (xs.map fun l => if p l then g l else l) = xs := by
  induction xs with
  | nil => rfl
  | cons hd tl ih =>
      rw [List.map_cons, if_neg (h hd (List.mem_cons_self hd tl)),
        ih fun l hl => h l (List.mem_cons_of_mem hd hl)]

/-- C4: starting from a state with no row for the pair, adding q1 and then
q2 for the same (userId, itemId) leaves exactly one row for the pair,
carrying quantity q1 + q2: the first call inserts, the second merges. -/
theorem C4_add_then_add_merges (s : Store) (u i : String) (q1 q2 : Int)
    (h : s.carts.filter (lineMatch u i) = []) :
    ((addToCart (addToCart s u i q1).2 u i q2).2).carts.filter
        (lineMatch u i) = [⟨u, i, q1 + q2⟩] := by
  have hmem : ∀ x ∈ s.carts, ¬ lineMatch u i x := List.filter_eq_nil_iff.mp h
  have hnone : s.carts.find? (lineMatch u i) = none :=
    List.find?_eq_none.mpr hmem
  have hc1 : (addToCart s u i q1).2.carts = s.carts ++ [⟨u, i, q1⟩] :=
    addToCart_carts_of_absent s u i q1 hnone
  have hfind2 :
      (addToCart s u i q1).2.carts.find? (lineMatch u i) =
        some ⟨u, i, q1⟩ := by
    rw [hc1, List.find?_append, hnone]
    simp [lineMatch]
  have hc2 := addToCart_carts_of_found (addToCart s u i q1).2 u i q2
    ⟨u, i, q1⟩ hfind2
  rw [hc1] at hc2
  rw [hc2, List.map_append, List.filter_append,
    map_update_no_match _ s.carts hmem, h]
  simp [lineMatch]

/-- Witness for C4: adding 2 then 3 apples to an empty cart stores one row
of quantity 5. -/
theorem C4_add_then_add_merges_witness :
    ((addToCart (addToCart emptyStore "u1" "apple" 2).2 "u1" "apple" 3).2).carts.filter
        (lineMatch "u1" "apple") = [⟨"u1", "apple", 5⟩] := by
  have h := C4_add_then_add_merges emptyStore "u1" "apple" 2 3 rfl
  simpa using h

/-! ### removeFromCart case analysis -/

/-- Rows selected by the pair's WHERE clause after the conditional
quantity update: the same rows, each carrying the new quantity. -/
theorem filter_map_update_pos (u i : String) (nq : Int)
    (xs : List CartLine) :
    ((xs.map fun l =>
        if lineMatch u i l then ⟨l.userId, l.itemId, nq⟩ else l).filter
      (lineMatch u i)) =
      (xs.filter (lineMatch u i)).map fun l =>
        (⟨l.userId, l.itemId, nq⟩ : CartLine) := by
  induction xs with
  | nil => rfl
  | cons hd tl ih =>
      by_cases hm : lineMatch u i hd
      · have hm2 : lineMatch u i ⟨hd.userId, hd.itemId, nq⟩ = true := by
          simpa [lineMatch] using hm
        rw [List.map_cons, if_pos hm, List.filter_cons_of_pos hm2,
          List.filter_cons_of_pos hm, List.map_cons, ih]
      · rw [List.map_cons, if_neg hm, List.filter_cons_of_neg hm,
          List.filter_cons_of_neg hm, ih]

/-- Rows NOT selected by the pair's WHERE clause are untouched by the
conditional quantity update. -/
theorem filter_not_map_update (u i : String) (nq : Int)
    (xs : List CartLine) :
    ((xs.map fun l =>
        if lineMatch u i l then ⟨l.userId, l.itemId, nq⟩ else l).filter
      fun l => !lineMatch u i l) =
      xs.filter fun l => !lineMatch u i l := by
  induction xs with
  | nil => rfl
  | cons hd tl ih =>
      by_cases hm : lineMatch u i hd
      · have hm2 : lineMatch u i (⟨hd.userId, hd.itemId, nq⟩ : CartLine) = true := by
          simpa [lineMatch] using hm
        rw [List.map_cons, if_pos hm, List.filter_cons_of_neg (by simp [hm2]),
          List.filter_cons_of_neg (by simp [hm]), ih]
      · rw [List.map_cons, if_neg hm, List.filter_cons_of_pos (by simp [hm]),
          List.filter_cons_of_pos (by simp [hm]), ih]

/-- C5: `removeFromCart` on an absent pair fails with "Item not in cart"
and changes nothing; on the unique stored line of quantity sq it succeeds,
leaves the items table and the other cart rows alone, and either updates
the pair's row to sq - q (when positive) or deletes it (zero and overshoot
alike). -/
theorem C5_removeFromCart_cases (s : Store) (u i : String) (q : Int) :
    (s.carts.filter (lineMatch u i) = [] →
      removeFromCart s u i q = (⟨false, some "Item not in cart"⟩, s)) ∧
    (∀ sq : Int, s.carts.filter (lineMatch u i) = [⟨u, i, sq⟩] →
      (removeFromCart s u i q).1 = ⟨true, none⟩ ∧
      (removeFromCart s u i q).2.items = s.items ∧
      ((removeFromCart s u i q).2.carts.filter fun l => !lineMatch u i l) =
        (s.carts.filter fun l => !lineMatch u i l) ∧
      (sq - q > 0 →
        (removeFromCart s u i q).2.carts.filter (lineMatch u i) =
          [⟨u, i, sq - q⟩]) ∧
      (sq - q ≤ 0 →
        (removeFromCart s u i q).2.carts.filter (lineMatch u i) = [])) := by
  constructor
  · intro h
    exact removeFromCart_of_absent s u i q
      (List.find?_eq_none.mpr (List.filter_eq_nil_iff.mp h))
  · intro sq h
    have hfind : s.carts.find? (lineMatch u i) = some ⟨u, i, sq⟩ := by
      rw [find?_eq_head?_filter, h]
      rfl
    by_cases hq : sq - q > 0
    · have heq := removeFromCart_of_found_pos s u i q ⟨u, i, sq⟩ hfind hq
      refine ⟨by rw [heq], by rw [heq], ?_, ?_, ?_⟩
      · rw [heq]
        exact filter_not_map_update u i (sq - q) s.carts
      · intro _
        have h2 := filter_map_update_pos u i (sq - q) s.carts
        rw [h] at h2
        rw [heq]
        exact h2.trans rfl
      · intro hle
        exact absurd hq (not_lt.mpr hle)
    · have heq := removeFromCart_of_found_nonpos s u i q ⟨u, i, sq⟩ hfind hq
      refine ⟨by rw [heq], by rw [heq], ?_, ?_, ?_⟩
      · rw [heq, List.filter_filter]
        exact List.filter_congr fun a _ => by simp
      · intro hpos
        exact absurd hpos hq
      · intro _
        rw [heq, List.filter_filter]
        exact List.filter_eq_nil_iff.mpr fun a _ => by simp

/-- Witness for C5: removing 2 of a stored 5 succeeds and leaves quantity
3 on the pair's row. -/
theorem C5_removeFromCart_cases_witness :
    (removeFromCart ⟨[], [⟨"u1", "apple", 5⟩]⟩ "u1" "apple" 2).1 =
      ⟨true, none⟩ ∧
    ((removeFromCart ⟨[], [⟨"u1", "apple", 5⟩]⟩ "u1" "apple" 2).2.carts.filter
        (lineMatch "u1" "apple")) = [⟨"u1", "apple", 3⟩] := by
  have h :=
    (C5_removeFromCart_cases ⟨[], [⟨"u1", "apple", 5⟩]⟩ "u1" "apple" 2).2 5
      (by decide)
  refine ⟨h.1, ?_⟩
  have h2 := h.2.2.2.1 (by decide)
  simpa using h2

/-! ### Join view -/

theorem flatMap_toList_eq_filterMap {α β : Type} (f : α → Option β)
    (l : List α) : (l.flatMap fun a => (f a).toList) = l.filterMap f := by
  induction l with
  | nil => rfl
  | cons hd tl ih =>
      cases hf : f hd with
      | none => simp [hf, ih]
      | some b => simp [hf, ih]

/-- With item ids unique (the primary-key constraint), the rows an id
selects are the first such row or nothing. -/
theorem filter_eq_find?_toList (x : String) (items : List Item)
    (hids : (items.map Item.id).Nodup) :
    (items.filter fun it => it.id == x) =
      (items.find? fun it => it.id == x).toList := by
  induction items with
  | nil => rfl
  | cons hd tl ih =>
      rw [List.map_cons, List.nodup_cons] at hids
      by_cases h : hd.id == x
      · have htl : (tl.filter fun it => it.id == x) = [] := by
          refine List.filter_eq_nil_iff.mpr ?_
          intro a ha hax
          have hax2 : a.id = x := eq_of_beq hax
          have hhd : hd.id = x := eq_of_beq h
          exact hids.1 (List.mem_map.mpr ⟨a, ha, by rw [hax2, hhd]⟩)
        simp [List.filter_cons, List.find?_cons, h, htl]
      · simp only [Bool.not_eq_true] at h
        simp [List.filter_cons, List.find?_cons, h, ih hids.2]

/-- C6: when item ids are unique, `viewCart` returns exactly one
{id, name, price, quantity} row per cart line of the user whose itemId
matches an existing item — the join of that line with its item — and
nothing for a line whose item is gone; after `removeItem` the carts table
is untouched, and no view row carries the removed id. -/
theorem C6_viewCart_inner_join (s : Store) (u : String)
    (hids : (s.items.map Item.id).Nodup) :
    viewCart s u =
      ((s.carts.filter fun l => l.userId == u).filterMap fun l =>
        (s.items.find? fun it => it.id == l.itemId).map fun it =>
          (⟨it.id, it.name, it.price, l.quantity⟩ : CartViewRow)) ∧
    ∀ rid : String,
      (removeItem s rid).2.carts = s.carts ∧
      ∀ r ∈ viewCart (removeItem s rid).2 u, ¬ r.id = rid := by
  constructor
  · unfold viewCart
    generalize (s.carts.filter fun l => l.userId == u) = ls
    induction ls with
    | nil => rfl
    | cons hd tl ih =>
        rw [List.flatMap_cons,
          filter_eq_find?_toList hd.itemId s.items hids]
        cases hf : s.items.find? fun it => it.id == hd.itemId with
        | none => simp [List.filterMap_cons, hf, ih]
        | some it => simp [List.filterMap_cons, hf, ih]
  · intro rid
    refine ⟨rfl, ?_⟩
    intro r hr
    unfold viewCart at hr
    rw [List.mem_flatMap] at hr
    obtain ⟨l0, hl0, hr⟩ := hr
    rw [List.mem_map] at hr
    obtain ⟨it, hit, rfl⟩ := hr
    have hmem : it ∈ s.items.filter fun it2 => !(it2.id == rid) :=
      List.mem_of_mem_filter hit
    have hne := (List.mem_filter.mp hmem).2
    intro hid
    have hid2 : it.id = rid := hid
    rw [hid2] at hne
    simp at hne

/-- Witness for C6: with one item and one orphaned line, viewCart shows
only the joined row. -/
theorem C6_viewCart_inner_join_witness :
    viewCart ⟨[⟨"apple", "Apple", 1⟩],
      [⟨"u1", "apple", 2⟩, ⟨"u1", "gone", 3⟩]⟩ "u1" =
      [⟨"apple", "Apple", 1, 2⟩] := by
  have h := (C6_viewCart_inner_join ⟨[⟨"apple", "Apple", 1⟩],
    [⟨"u1", "apple", 2⟩, ⟨"u1", "gone", 3⟩]⟩ "u1" (by decide)).1
  rw [h]
  decide
